import Mathlib

/-!
Verification of the reconciliation core of
`aws/resource_aws_config_delivery_channel.go`: the put-then-verify upsert
flow, the read-and-normalize flow, and the delete-with-retry flow of the
AWS Config delivery-channel resource.

The Go code is shallowly embedded: the remote service client is a record of
three state-passing functions, `resource.Retry`'s bounded wall-clock window
is abstracted into a retry budget (the number of further attempts the window
still permits; the loop always runs at least one attempt, mirroring
`resource.Retry` running the function once immediately), and Go errors are
either structured AWS errors (code + message) or, at the top level, the
strings produced by `fmt.Errorf`.
-/

/-- A remote service error as seen through `awserr.Error`: a machine-readable
code and a message. -/
structure AwsError where
  code : String
  message : String
deriving Repr, DecidableEq

/-- Does the character list `l` start with the character list `pat`? -/
def charsStartWith : List Char → List Char → Bool
  | _, [] => true
  | [], _ :: _ => false
  | c :: cs, p :: ps => c == p && charsStartWith cs ps

/-- Does the character list `l` contain `pat` as a contiguous run?  Models
Go's `strings.Contains` on the characters of the two strings. -/
def charsContain : List Char → List Char → Bool
  | [], pat => pat.isEmpty
  | c :: cs, pat => charsStartWith (c :: cs) pat || charsContain cs pat

/-- Go `strings.Contains s sub`. -/
def strContains (s sub : String) : Bool :=
  charsContain s.data sub.data

/-- Modelled from the spec: `isAWSErr` (a helper of this repository defined
outside the sources in scope) classifies a remote error by matching a
specific code and, when the third argument is nonempty, a message substring:
"classification in §4 depends on matching specific codes", and in one case
"a message additionally must be checked for a ... substring". -/
def isAWSErr (e : AwsError) (code msg : String) : Bool :=
  e.code == code && strContains e.message msg

/-- The constant `configservice.ErrCodeLastDeliveryChannelDeleteFailedException`
from the AWS SDK. -/
def ErrCodeLastDeliveryChannelDeleteFailedException : String :=
  "LastDeliveryChannelDeleteFailedException"

/-- Wire-level `configservice.ConfigSnapshotDeliveryProperties`.  The Go
field is `*string`; `none` models a nil pointer (field omitted on the
wire). -/
structure ConfigSnapshotDeliveryProperties where
  DeliveryFrequency : Option String
deriving Repr, DecidableEq

/-- Wire-level `configservice.DeliveryChannel`.  Every Go field is a
pointer; `none` models nil (field omitted on the wire).  `S3KeyPref` models
the source field `S3KeyPrefix`. -/
structure DeliveryChannel where
  Name : Option String := none
  S3BucketName : Option String := none
  S3KeyPref : Option String := none
  S3KmsKeyArn : Option String := none
  SnsTopicARN : Option String := none
  ConfigSnapshotDeliveryProperties : Option ConfigSnapshotDeliveryProperties := none
deriving Repr, DecidableEq

/-- `configservice.PutDeliveryChannelInput`. -/
structure PutDeliveryChannelInput where
  DeliveryChannel : DeliveryChannel
deriving Repr, DecidableEq

/-- `configservice.DescribeDeliveryChannelsInput`. -/
structure DescribeDeliveryChannelsInput where
  DeliveryChannelNames : List String
deriving Repr, DecidableEq

/-- `configservice.DescribeDeliveryChannelsOutput`. -/
structure DescribeDeliveryChannelsOutput where
  DeliveryChannels : List DeliveryChannel
deriving Repr, DecidableEq

/-- `configservice.DeleteDeliveryChannelInput`. -/
structure DeleteDeliveryChannelInput where
  DeliveryChannelName : String
deriving Repr, DecidableEq

/-- One `snapshot_delivery_properties` block as the Terraform SDK hands it
to the resource: the SDK materializes every attribute declared in the
block's schema, using the type's zero value (here `""`) when the user did
not set it, so `delivery_frequency` is a plain string, `""` meaning
absent. -/
structure SnapshotDeliveryBlock where
  delivery_frequency : String
deriving Repr, DecidableEq

/-- The `*schema.ResourceData` handle restricted to the attributes this
resource declares.  String attributes carry `""` when unset (the SDK zero
value); `snapshot_delivery_properties` is a list of at most one block
(schema `MaxItems: 1`); `id` is the resource identity manipulated with
`d.Id()` / `d.SetId`.  `s3_key_pref` models the source attribute
`s3_key_prefix`. -/
structure ResourceData where
  id : String
  name : String
  s3_bucket_name : String
  s3_key_pref : String
  s3_kms_key_arn : String
  sns_topic_arn : String
  snapshot_delivery_properties : List SnapshotDeliveryBlock
deriving Repr, DecidableEq

/-- Terraform SDK `d.GetOk` on a string attribute: the second return value
is false exactly when the stored value is the zero value `""`, so the
guarded assignment `if v, ok := d.GetOk(k); ok { field = aws.String(v) }`
yields `some v` for a non-empty value and leaves the field nil otherwise. -/
def getOk (v : String) : Option String :=
  if v = "" then none else some v

/-- The wire object built by `resourceAwsConfigDeliveryChannelPut` lines
76-102: `Name` and `S3BucketName` always set, each optional scalar set only
when `d.GetOk` reports it present, and the snapshot block handled by
`if p, ok := d.GetOk("snapshot_delivery_properties"); ok` (true exactly when
the block list is non-empty) followed by
`if v, ok := block["delivery_frequency"]; ok` — the SDK materializes every
declared key of the block's map, so that lookup always succeeds and
`DeliveryFrequency` is always set (to `""` when the user left the frequency
unset). -/
def buildDeliveryChannel (d : ResourceData) : DeliveryChannel :=
  { Name := some d.name,
    S3BucketName := some d.s3_bucket_name,
    S3KeyPref := getOk d.s3_key_pref,
    S3KmsKeyArn := getOk d.s3_kms_key_arn,
    SnsTopicARN := getOk d.sns_topic_arn,
    ConfigSnapshotDeliveryProperties :=
      match d.snapshot_delivery_properties with
      | [] => none
      | block :: _ =>
          some { DeliveryFrequency := some block.delivery_frequency } }

/-- Modelled from the spec: `flattenConfigSnapshotDeliveryProperties` (a
helper of this repository defined outside the sources in scope) maps the
wire snapshot block back to the caller's one-element block list ("normalize
... copy the snapshot-delivery block"), dereferencing the frequency pointer
to the SDK zero value when nil. -/
def flattenConfigSnapshotDeliveryProperties
    (p : ConfigSnapshotDeliveryProperties) : List SnapshotDeliveryBlock :=
  [{ delivery_frequency := p.DeliveryFrequency.getD "" }]

/-- Go's rendering of an `awserr.Error` through the `%s` verb of
`fmt.Errorf`: the error's code and message. -/
def renderAwsErr (e : AwsError) : String :=
  e.code ++ ": " ++ e.message

/-- Go's rendering of a `[]*configservice.DeliveryChannel` through the `%s`
verb of `fmt.Errorf`. -/
def renderChannels (cs : List DeliveryChannel) : String :=
  toString (repr cs)

/-- The `configservice` client handle (`meta.(*AWSClient).configconn`)
restricted to the three calls this resource issues.  `σ` is the remote
service's state, threaded explicitly; each call returns an AWS error or a
typed result. -/
structure Client (σ : Type) where
  putDeliveryChannel :
    PutDeliveryChannelInput → σ → Except AwsError Unit × σ
  describeDeliveryChannels :
    DescribeDeliveryChannelsInput → σ → Except AwsError DescribeDeliveryChannelsOutput × σ
  deleteDeliveryChannel :
    DeleteDeliveryChannelInput → σ → Except AwsError Unit × σ

/-- The outcome of `resource.Retry`: success, a non-retryable error
(surfaced as the error itself), or a `*resource.TimeoutError` recording the
last retryable error — the case `isResourceTimeoutError` recognizes. -/
inductive RetryOutcome where
  | ok
  | failed (e : AwsError)
  | timedOut (e : AwsError)
deriving Repr, DecidableEq

/-- `resource.Retry(timeout, func)`: run the attempt once immediately; on
success or a non-retryable error stop at once; on a retryable error back
off and re-run until the window elapses, then return a timeout error
holding the last retryable error.  The wall-clock window is abstracted into
`retriesLeft`, the number of further attempts it still permits. -/
def retryLoop {σ : Type} (attempt : σ → Except AwsError Unit × σ)
    (retryable : AwsError → Bool) : Nat → σ → RetryOutcome × σ
  | retriesLeft, s =>
    match attempt s with
    | (Except.ok _, s') => (RetryOutcome.ok, s')
    | (Except.error e, s') =>
      if retryable e then
        match retriesLeft with
        | 0 => (RetryOutcome.timedOut e, s')
        | Nat.succ m => retryLoop attempt retryable m s'
      else (RetryOutcome.failed e, s')

/-- The literal retry window Delete passes to `resource.Retry`:
`30*time.Second`, in seconds.  The step-indexed model abstracts the
wall-clock window into a retry budget, so the window's length appears only
through this constant. -/
def deleteRetryWindowSeconds : Nat := 30

/-- `resourceAwsConfigDeliveryChannelRead`: describe the channel named by
the stored identity; on the typed not-found error or an empty result clear
the identity and succeed; on more than one result fail with the
consistency error; otherwise copy the single channel's fields into state,
the snapshot block only when the service reports one. -/
def resourceAwsConfigDeliveryChannelRead {σ : Type} (conn : Client σ)
    (d : ResourceData) (s : σ) : Except String Unit × ResourceData × σ :=
  let input : DescribeDeliveryChannelsInput :=
    { DeliveryChannelNames := [d.id] }
  match conn.describeDeliveryChannels input s with
  | (Except.error e, s') =>
    if e.code == "NoSuchDeliveryChannelException" then
      (Except.ok (), { d with id := "" }, s')
    else
      (Except.error ("Getting Delivery Channel failed: " ++ renderAwsErr e), d, s')
  | (Except.ok out, s') =>
    match out.DeliveryChannels with
    | [] =>
      -- len(out.DeliveryChannels) < 1
      (Except.ok (), { d with id := "" }, s')
    | _ :: _ :: _ =>
      -- len(out.DeliveryChannels) > 1
      (Except.error ("Received " ++ toString out.DeliveryChannels.length ++
          " delivery channels under " ++ d.id ++ " (expected exactly 1): " ++
          renderChannels out.DeliveryChannels), d, s')
    | [channel] =>
      let d' : ResourceData :=
        { d with
          name := channel.Name.getD "",
          s3_bucket_name := channel.S3BucketName.getD "",
          s3_key_pref := channel.S3KeyPref.getD "",
          s3_kms_key_arn := channel.S3KmsKeyArn.getD "",
          sns_topic_arn := channel.SnsTopicARN.getD "" }
      let d'' : ResourceData :=
        match channel.ConfigSnapshotDeliveryProperties with
        | some p =>
          { d' with snapshot_delivery_properties :=
              flattenConfigSnapshotDeliveryProperties p }
        | none => d'
      (Except.ok (), d'', s')

/-- `resourceAwsConfigDeliveryChannelPut`: build the wire object, put it
under `resource.Retry` (retryable exactly on
`InsufficientDeliveryPolicyException`); when the retry window elapsed
(`isResourceTimeoutError`) issue exactly one more unretried put; on any
remaining error fail with the wrapped creation error; on success set the
identity to the configured name and return the result of Read. -/
def resourceAwsConfigDeliveryChannelPut {σ : Type} (conn : Client σ)
    (retries : Nat) (d : ResourceData) (s : σ) :
    Except String Unit × ResourceData × σ :=
  let name := d.name
  let channel := buildDeliveryChannel d
  let input : PutDeliveryChannelInput := { DeliveryChannel := channel }
  match retryLoop (fun st => conn.putDeliveryChannel input st)
      (fun e => isAWSErr e "InsufficientDeliveryPolicyException" "") retries s with
  | (RetryOutcome.ok, s') =>
    resourceAwsConfigDeliveryChannelRead conn { d with id := name } s'
  | (RetryOutcome.failed e, s') =>
    (Except.error ("Creating Delivery Channel failed: " ++ renderAwsErr e), d, s')
  | (RetryOutcome.timedOut _, s') =>
    match conn.putDeliveryChannel input s' with
    | (Except.ok _, s'') =>
      resourceAwsConfigDeliveryChannelRead conn { d with id := name } s''
    | (Except.error e, s'') =>
      (Except.error ("Creating Delivery Channel failed: " ++ renderAwsErr e), d, s'')

/-- `resourceAwsConfigDeliveryChannelDelete`: delete the channel named by
the stored identity under `resource.Retry` with the 30-second window
(retryable exactly on `ErrCodeLastDeliveryChannelDeleteFailedException`
whose message contains "there is a running configuration recorder"); when
the window elapsed issue exactly one more unretried delete; on any
remaining error fail with the wrapped deletion error. -/
def resourceAwsConfigDeliveryChannelDelete {σ : Type} (conn : Client σ)
    (retries : Nat) (d : ResourceData) (s : σ) :
    Except String Unit × ResourceData × σ :=
  let input : DeleteDeliveryChannelInput := { DeliveryChannelName := d.id }
  match retryLoop (fun st => conn.deleteDeliveryChannel input st)
      (fun e => isAWSErr e ErrCodeLastDeliveryChannelDeleteFailedException
        "there is a running configuration recorder") retries s with
  | (RetryOutcome.ok, s') => (Except.ok (), d, s')
  | (RetryOutcome.failed e, s') =>
    (Except.error ("Unable to delete delivery channel: " ++ renderAwsErr e), d, s')
  | (RetryOutcome.timedOut _, s') =>
    match conn.deleteDeliveryChannel input s' with
    | (Except.ok _, s'') => (Except.ok (), d, s'')
    | (Except.error e, s'') =>
      (Except.error ("Unable to delete delivery channel: " ++ renderAwsErr e), d, s'')

/-- A client that counts delete calls: the service state is the number of
delete calls made so far, and the outcome of the i-th delete call (0-based)
is `g i`.  Put and describe are inert. -/
def deleteCountClient (g : Nat → Except AwsError Unit) : Client Nat :=
  { putDeliveryChannel := fun _ k => (Except.ok (), k),
    describeDeliveryChannels := fun _ k => (Except.ok { DeliveryChannels := [] }, k),
    deleteDeliveryChannel := fun _ k => (g k, k + 1) }

/-- A client that counts put and describe calls separately: the service
state is the pair (puts made, describes made), the outcome of the i-th put
call (0-based) is `f i`, and every describe call returns `desc`. -/
def putDescCountClient (f : Nat → Except AwsError Unit)
    (desc : Except AwsError DescribeDeliveryChannelsOutput) : Client (Nat × Nat) :=
  { putDeliveryChannel := fun _ q => (f q.1, (q.1 + 1, q.2)),
    describeDeliveryChannels := fun _ q => (desc, (q.1, q.2 + 1)),
    deleteDeliveryChannel := fun _ q => (Except.ok (), q) }

/-- A remote service that treats put as an idempotent replace-by-name and
echoes the stored object on describe: state is the (at most one) stored
channel; describe returns the stored channel when its name is among the
requested names; delete removes it. -/
def echoClient : Client (Option DeliveryChannel) :=
  { putDeliveryChannel := fun input _ => (Except.ok (), some input.DeliveryChannel),
    describeDeliveryChannels := fun input st =>
      match st with
      | some ch =>
        if input.DeliveryChannelNames.contains (ch.Name.getD "") then
          (Except.ok { DeliveryChannels := [ch] }, st)
        else (Except.ok { DeliveryChannels := [] }, st)
      | none => (Except.ok { DeliveryChannels := [] }, st),
    deleteDeliveryChannel := fun input st =>
      match st with
      | some ch =>
        if ch.Name.getD "" == input.DeliveryChannelName then (Except.ok (), none)
        else (Except.error { code := "NoSuchDeliveryChannelException", message := "" }, st)
      | none =>
        (Except.error { code := "NoSuchDeliveryChannelException", message := "" }, st) }

/-- The state Upsert against `echoClient` leaves behind: identity set to the
configured name and every attribute read back from the echoed wire object
(optional scalars go out as `getOk` and come back dereferenced with `""`
for nil; a present snapshot block comes back as a one-element list holding
its frequency). -/
def echoReadBack (d : ResourceData) : ResourceData :=
  { id := d.name, name := d.name, s3_bucket_name := d.s3_bucket_name,
    s3_key_pref := (getOk d.s3_key_pref).getD "",
    s3_kms_key_arn := (getOk d.s3_kms_key_arn).getD "",
    sns_topic_arn := (getOk d.sns_topic_arn).getD "",
    snapshot_delivery_properties :=
      match d.snapshot_delivery_properties with
      | [] => d.snapshot_delivery_properties
      | b :: _ => [ { delivery_frequency := b.delivery_frequency } ] }

/-- A client whose describe call reports one channel that carries no
snapshot-delivery block. -/
def staleSnapClient : Client Unit :=
  { putDeliveryChannel := fun _ u => (Except.ok (), u),
    describeDeliveryChannels := fun _ u =>
      (Except.ok { DeliveryChannels :=
        [ { Name := some "default", S3BucketName := some "bucket" } ] }, u),
    deleteDeliveryChannel := fun _ u => (Except.ok (), u) }

/-- A prior state that still holds a snapshot-delivery block. -/
def staleSnapPrior : ResourceData :=
  { id := "default", name := "default", s3_bucket_name := "bucket",
    s3_key_pref := "", s3_kms_key_arn := "", sns_topic_arn := "",
    snapshot_delivery_properties := [ { delivery_frequency := "TwentyFour_Hours" } ] }

/-- A spec with a snapshot-delivery block present but its frequency unset. -/
def blockNoFreqSpec : ResourceData :=
  { id := "", name := "default", s3_bucket_name := "my-bucket",
    s3_key_pref := "", s3_kms_key_arn := "", sns_topic_arn := "",
    snapshot_delivery_properties := [ { delivery_frequency := "" } ] }

/-- A spec with a key path set and a snapshot block with a set frequency. -/
def blockWithFreqSpec : ResourceData :=
  { id := "", name := "default", s3_bucket_name := "my-bucket",
    s3_key_pref := "logs/", s3_kms_key_arn := "", sns_topic_arn := "",
    snapshot_delivery_properties := [ { delivery_frequency := "Six_Hours" } ] }

/-- The minimal spec of the end-to-end test property: name "default",
bucket "my-bucket", all optionals absent. -/
def specD : ResourceData :=
  { id := "default", name := "default", s3_bucket_name := "my-bucket",
    s3_key_pref := "", s3_kms_key_arn := "", sns_topic_arn := "",
    snapshot_delivery_properties := [] }

/-- The transient error Upsert retries on. -/
def insuffErr : AwsError :=
  { code := "InsufficientDeliveryPolicyException", message := "" }

/-- The transient error Delete retries on. -/
def recorderErr : AwsError :=
  { code := "LastDeliveryChannelDeleteFailedException",
    message := "there is a running configuration recorder" }

/-- Call outcomes: the first put fails with the transient policy error, any
later one succeeds. -/
def oneErrThenOkPut : Nat → Except AwsError Unit :=
  fun i => if i = 0 then Except.error insuffErr else Except.ok ()

/-- Call outcomes: the first delete fails with the transient recorder
error, any later one succeeds. -/
def oneErrThenOkDelete : Nat → Except AwsError Unit :=
  fun i => if i = 0 then Except.error recorderErr else Except.ok ()

/-- A describe result with zero matching channels. -/
def descEmpty : Except AwsError DescribeDeliveryChannelsOutput :=
  Except.ok { DeliveryChannels := [] }

/-- A client whose put succeeds and whose describe reports zero matching
channels. -/
def absentClient : Client Unit :=
  { putDeliveryChannel := fun _ u => (Except.ok (), u),
    describeDeliveryChannels := fun _ u => (Except.ok { DeliveryChannels := [] }, u),
    deleteDeliveryChannel := fun _ u => (Except.ok (), u) }

/-- A channel a misbehaving backend reports twice. -/
def dupChannel : DeliveryChannel :=
  { Name := some "default", S3BucketName := some "bucket" }

/-- A client whose describe call reports two channels for one requested
name. -/
def dupClient : Client Unit :=
  { putDeliveryChannel := fun _ u => (Except.ok (), u),
    describeDeliveryChannels := fun _ u =>
      (Except.ok { DeliveryChannels := [dupChannel, dupChannel] }, u),
    deleteDeliveryChannel := fun _ u => (Except.ok (), u) }


theorem strContains_empty (s : String) : strContains s "" = true := by
  unfold strContains
  cases s.data with
  | nil => rfl
  | cons c cs => simp [charsContain, charsStartWith]

theorem isAWSErr_empty_msg (e : AwsError) (c : String) :
    isAWSErr e c "" = (e.code == c) := by
  unfold isAWSErr
  rw [strContains_empty]
  simp

theorem retryLoop_first_ok {σ : Type} (attempt : σ → Except AwsError Unit × σ)
    (p : AwsError → Bool) (n : Nat) (s s' : σ)
    (h : attempt s = (Except.ok (), s')) :
    retryLoop attempt p n s = (RetryOutcome.ok, s') := by
  rw [retryLoop]
  simp [h]

theorem retryLoop_first_terminal {σ : Type} (attempt : σ → Except AwsError Unit × σ)
    (p : AwsError → Bool) (n : Nat) (s s' : σ) (e : AwsError)
    (h : attempt s = (Except.error e, s')) (hp : p e = false) :
    retryLoop attempt p n s = (RetryOutcome.failed e, s') := by
  rw [retryLoop]
  simp [h, hp]

theorem retryLoop_count_timeout (p : AwsError → Bool) (f : Nat → Except AwsError Unit)
    (n : Nat) :
    ∀ (k : Nat), (∀ i, i ≤ n → ∃ e, f (k + i) = Except.error e ∧ p e = true) →
    ∃ e, f (k + n) = Except.error e ∧ p e = true ∧
      retryLoop (fun j => (f j, j + 1)) p n k = (RetryOutcome.timedOut e, k + n + 1) := by
  induction n with
  | zero =>
    intro k h
    obtain ⟨e, he, hp⟩ := h 0 (Nat.le_refl 0)
    rw [Nat.add_zero] at he
    exact ⟨e, he, hp, by rw [retryLoop]; simp [he, hp]⟩
  | succ n ih =>
    intro k h
    obtain ⟨e0, he0, hp0⟩ := h 0 (Nat.zero_le _)
    rw [Nat.add_zero] at he0
    obtain ⟨e, he, hp, hloop⟩ := ih (k + 1) (fun i hi => by
      obtain ⟨e', he', hp'⟩ := h (i + 1) (Nat.succ_le_succ hi)
      exact ⟨e', by rw [show k + 1 + i = k + (i + 1) by omega]; exact he', hp'⟩)
    refine ⟨e, by rw [show k + (n + 1) = k + 1 + n by omega]; exact he, hp, ?_⟩
    rw [retryLoop]
    simp only [he0, hp0, if_true]
    rw [show k + (n + 1) + 1 = k + 1 + n + 1 by omega]
    exact hloop

theorem retryLoop_count2_timeout (p : AwsError → Bool) (f : Nat → Except AwsError Unit)
    (n : Nat) :
    ∀ (k m : Nat), (∀ i, i ≤ n → ∃ e, f (k + i) = Except.error e ∧ p e = true) →
    ∃ e, f (k + n) = Except.error e ∧ p e = true ∧
      retryLoop (fun q => (f q.1, (q.1 + 1, q.2))) p n (k, m) =
        (RetryOutcome.timedOut e, (k + n + 1, m)) := by
  induction n with
  | zero =>
    intro k m h
    obtain ⟨e, he, hp⟩ := h 0 (Nat.le_refl 0)
    rw [Nat.add_zero] at he
    exact ⟨e, he, hp, by rw [retryLoop]; simp [he, hp]⟩
  | succ n ih =>
    intro k m h
    obtain ⟨e0, he0, hp0⟩ := h 0 (Nat.zero_le _)
    rw [Nat.add_zero] at he0
    obtain ⟨e, he, hp, hloop⟩ := ih (k + 1) m (fun i hi => by
      obtain ⟨e', he', hp'⟩ := h (i + 1) (Nat.succ_le_succ hi)
      exact ⟨e', by rw [show k + 1 + i = k + (i + 1) by omega]; exact he', hp'⟩)
    refine ⟨e, by rw [show k + (n + 1) = k + 1 + n by omega]; exact he, hp, ?_⟩
    rw [retryLoop]
    simp only [he0, hp0, if_true]
    rw [show k + (n + 1) + 1 = k + 1 + n + 1 by omega]
    exact hloop

theorem getOk_getD (v : String) : (getOk v).getD "" = v := by
  unfold getOk
  split <;> simp_all

theorem put_echo (n : Nat) (d : ResourceData) (s0 : Option DeliveryChannel) :
    resourceAwsConfigDeliveryChannelPut echoClient n d s0 =
      (Except.ok (), echoReadBack d, some (buildDeliveryChannel d)) := by
  simp only [resourceAwsConfigDeliveryChannelPut]
  rw [retryLoop_first_ok _ _ n s0 (some (buildDeliveryChannel d)) rfl]
  simp only [resourceAwsConfigDeliveryChannelRead, echoClient, buildDeliveryChannel]
  simp only [echoReadBack]
  cases hsnap : d.snapshot_delivery_properties with
  | nil => simp [hsnap]
  | cons b rest => simp [hsnap, flattenConfigSnapshotDeliveryProperties]

theorem echoReadBack_roundtrip (d : ResourceData)
    (hd : d.snapshot_delivery_properties.length ≤ 1) :
    echoReadBack d = { d with id := d.name } := by
  unfold echoReadBack
  cases hsnap : d.snapshot_delivery_properties with
  | nil => simp [getOk_getD, hsnap]
  | cons b rest =>
    rw [hsnap] at hd
    have hrest : rest = [] := by
      cases rest with
      | nil => rfl
      | cons x xs => simp at hd
    subst hrest
    cases b
    simp [getOk_getD, hsnap]

/-- C1: for both Upsert and Delete, when every attempt the retry window
permits fails with an error the policy classifies retryable, the operation
performs exactly one additional unretried remote call (the counting client
records the window's `n + 1` attempts plus one more, `n + 2` in all) and
surfaces that final call's outcome — success proceeds exactly as normal
success (identity set, Read invoked and returned), an error is surfaced
wrapped, and no timeout error is ever surfaced. -/
theorem timeout_final_attempt (f g : Nat → Except AwsError Unit)
    (desc : Except AwsError DescribeDeliveryChannelsOutput)
    (d : ResourceData) (n : Nat)
    (hf : ∀ i, i ≤ n → ∃ e, f i = Except.error e ∧
        isAWSErr e "InsufficientDeliveryPolicyException" "" = true)
    (hg : ∀ i, i ≤ n → ∃ e, g i = Except.error e ∧
        isAWSErr e ErrCodeLastDeliveryChannelDeleteFailedException
          "there is a running configuration recorder" = true) :
    (resourceAwsConfigDeliveryChannelPut (putDescCountClient f desc) n d (0, 0) =
      match f (n + 1) with
      | Except.ok _ =>
        resourceAwsConfigDeliveryChannelRead (putDescCountClient f desc)
          { d with id := d.name } (n + 2, 0)
      | Except.error e =>
        (Except.error ("Creating Delivery Channel failed: " ++ renderAwsErr e),
          d, (n + 2, 0))) ∧
    (resourceAwsConfigDeliveryChannelDelete (deleteCountClient g) n d 0 =
      match g (n + 1) with
      | Except.ok _ => (Except.ok (), d, n + 2)
      | Except.error e =>
        (Except.error ("Unable to delete delivery channel: " ++ renderAwsErr e),
          d, n + 2)) := by
  constructor
  · obtain ⟨e, he, hp, hloop⟩ := retryLoop_count2_timeout
      (fun e => isAWSErr e "InsufficientDeliveryPolicyException" "") f n 0 0
      (fun i hi => by simpa using hf i hi)
    simp only [Nat.zero_add] at hloop
    simp only [resourceAwsConfigDeliveryChannelPut, putDescCountClient]
    rw [hloop]
    cases hfin : f (n + 1) with
    | ok u => simp [hfin, Nat.add_assoc]
    | error e' => simp [hfin, Nat.add_assoc]
  · obtain ⟨e, he, hp, hloop⟩ := retryLoop_count_timeout
      (fun e => isAWSErr e ErrCodeLastDeliveryChannelDeleteFailedException
        "there is a running configuration recorder") g n 0
      (fun i hi => by simpa using hg i hi)
    simp only [Nat.zero_add] at hloop
    simp only [resourceAwsConfigDeliveryChannelDelete, deleteCountClient]
    rw [hloop]
    cases hfin : g (n + 1) with
    | ok u => simp [hfin, Nat.add_assoc]
    | error e' => simp [hfin, Nat.add_assoc]

/-- Witness for C1: with a window of one attempt and clients failing
transiently on the first call and succeeding on the second, Upsert makes
its one extra put call and proceeds to the read-back, and Delete makes its
one extra delete call and succeeds, both having made 2 remote calls. -/
theorem timeout_final_attempt_witness :
    resourceAwsConfigDeliveryChannelPut
        (putDescCountClient oneErrThenOkPut descEmpty) 0 specD (0, 0) =
      resourceAwsConfigDeliveryChannelRead
        (putDescCountClient oneErrThenOkPut descEmpty)
        { specD with id := specD.name } (2, 0) ∧
    resourceAwsConfigDeliveryChannelDelete
        (deleteCountClient oneErrThenOkDelete) 0 specD 0 =
      (Except.ok (), specD, 2) := by
  have h := timeout_final_attempt oneErrThenOkPut oneErrThenOkDelete descEmpty specD 0
    (by
      intro i hi
      have h0 : i = 0 := Nat.le_zero.mp hi
      subst h0
      exact ⟨insuffErr, rfl, by decide⟩)
    (by
      intro i hi
      have h0 : i = 0 := Nat.le_zero.mp hi
      subst h0
      exact ⟨recorderErr, rfl, by decide⟩)
  exact h

/-- C2, counterexample: the claim that no empty-string placeholder is ever
sent for an absent optional fails — for a spec whose snapshot-delivery
block is present with its frequency unset, the wire object carries the
block with `DeliveryFrequency` set to the empty string, not omitted. -/
theorem build_empty_frequency_counterexample :
    (buildDeliveryChannel blockNoFreqSpec).ConfigSnapshotDeliveryProperties =
      some { DeliveryFrequency := some "" } ∧
    (buildDeliveryChannel blockNoFreqSpec).ConfigSnapshotDeliveryProperties ≠
      some { DeliveryFrequency := none } ∧
    (buildDeliveryChannel blockNoFreqSpec).ConfigSnapshotDeliveryProperties ≠
      none := by
  refine ⟨rfl, by decide, by decide⟩

/-- C2, amended: Upsert's wire object omits each absent optional scalar
(key path, encryption key reference, topic reference — never sending an
empty string for them) and omits the snapshot-delivery block exactly when
the spec has none; but when the block is present its frequency is always
sent, as the empty string when unset, so a spec with a block whose
frequency is absent still encodes differently from one with no block at
all — via an empty-string placeholder rather than omission. -/
theorem build_field_omission (d : ResourceData) :
    ((buildDeliveryChannel d).S3KeyPref = none ↔ d.s3_key_pref = "") ∧
    ((buildDeliveryChannel d).S3KmsKeyArn = none ↔ d.s3_kms_key_arn = "") ∧
    ((buildDeliveryChannel d).SnsTopicARN = none ↔ d.sns_topic_arn = "") ∧
    (buildDeliveryChannel d).S3KeyPref ≠ some "" ∧
    (buildDeliveryChannel d).S3KmsKeyArn ≠ some "" ∧
    (buildDeliveryChannel d).SnsTopicARN ≠ some "" ∧
    ((buildDeliveryChannel d).ConfigSnapshotDeliveryProperties = none ↔
      d.snapshot_delivery_properties = []) ∧
    (∀ b rest, d.snapshot_delivery_properties = b :: rest →
      (buildDeliveryChannel d).ConfigSnapshotDeliveryProperties =
        some { DeliveryFrequency := some b.delivery_frequency }) := by
  unfold buildDeliveryChannel getOk
  refine ⟨?_, ?_, ?_, ?_, ?_, ?_, ?_, ?_⟩
  · split <;> simp_all
  · split <;> simp_all
  · split <;> simp_all
  · split <;> simp_all
  · split <;> simp_all
  · split <;> simp_all
  · cases d.snapshot_delivery_properties <;> simp
  · intro b rest hb
    simp [hb]

/-- Witness for C2's amended theorem: a spec with a present snapshot block
carrying frequency "Six_Hours" puts that frequency on the wire. -/
theorem build_field_omission_witness :
    (buildDeliveryChannel blockWithFreqSpec).ConfigSnapshotDeliveryProperties =
      some { DeliveryFrequency := some "Six_Hours" } :=
  (build_field_omission blockWithFreqSpec).2.2.2.2.2.2.2
    { delivery_frequency := "Six_Hours" } [] rfl

/-- C3, counterexample: the claim that the caller's state ends with the
snapshot block absent whenever the remote object carries none, regardless
of prior state, fails — with a prior state holding a block and a service
reporting one channel without one, Read succeeds but leaves the stale
block in state. -/
theorem read_stale_snapshot_counterexample :
    (staleSnapClient.describeDeliveryChannels
        { DeliveryChannelNames := ["default"] } ()).1 =
      Except.ok { DeliveryChannels :=
        [ { Name := some "default", S3BucketName := some "bucket",
            ConfigSnapshotDeliveryProperties := none } ] } ∧
    (resourceAwsConfigDeliveryChannelRead staleSnapClient staleSnapPrior ()).1 =
      Except.ok () ∧
    (resourceAwsConfigDeliveryChannelRead staleSnapClient
        staleSnapPrior ()).2.1.snapshot_delivery_properties =
      [ { delivery_frequency := "TwentyFour_Hours" } ] := by
  refine ⟨rfl, rfl, rfl⟩

/-- C3, amended: when Read observes exactly one remote object, the
snapshot-delivery block is copied into state exactly when the service
reports one; when the remote object carries none, the block field is left
unchanged — so it ends absent whenever it was absent before the Read, but
a previously present block is not cleared. -/
theorem read_snapshot_copy {σ : Type} (conn : Client σ)
    (d : ResourceData) (s s' : σ) (ch : DeliveryChannel)
    (h : conn.describeDeliveryChannels { DeliveryChannelNames := [d.id] } s =
        (Except.ok { DeliveryChannels := [ch] }, s')) :
    (resourceAwsConfigDeliveryChannelRead conn d s).2.1.snapshot_delivery_properties =
      match ch.ConfigSnapshotDeliveryProperties with
      | some p => flattenConfigSnapshotDeliveryProperties p
      | none => d.snapshot_delivery_properties := by
  unfold resourceAwsConfigDeliveryChannelRead
  cases hp : ch.ConfigSnapshotDeliveryProperties with
  | none => simp [h, hp]
  | some p => simp [h, hp]

/-- Witness for C3's amended theorem: against the one-channel-no-block
service, Read leaves the snapshot block field exactly as it was. -/
theorem read_snapshot_copy_witness :
    (resourceAwsConfigDeliveryChannelRead staleSnapClient
        staleSnapPrior ()).2.1.snapshot_delivery_properties =
      staleSnapPrior.snapshot_delivery_properties :=
  read_snapshot_copy staleSnapClient staleSnapPrior () ()
    { Name := some "default", S3BucketName := some "bucket" } rfl

/-- C4: whatever client, window and state, Upsert either fails with the
wrapped creation error, or its entire result is the result of Read invoked
on the state whose identity has been set to the spec's name — it never
returns success without having performed the read-back. -/
theorem put_always_reads_back {σ : Type} (conn : Client σ) (retries : Nat)
    (d : ResourceData) (s : σ) :
    (∃ e, (resourceAwsConfigDeliveryChannelPut conn retries d s).1 =
        Except.error ("Creating Delivery Channel failed: " ++ renderAwsErr e)) ∨
    (∃ s', resourceAwsConfigDeliveryChannelPut conn retries d s =
        resourceAwsConfigDeliveryChannelRead conn { d with id := d.name } s') := by
  unfold resourceAwsConfigDeliveryChannelPut
  rcases hr : retryLoop (fun st => conn.putDeliveryChannel
      { DeliveryChannel := buildDeliveryChannel d } st)
      (fun e => isAWSErr e "InsufficientDeliveryPolicyException" "") retries s with ⟨o, s'⟩
  cases o with
  | ok => exact Or.inr ⟨s', by simp [hr]⟩
  | failed e => exact Or.inl ⟨e, by simp [hr]⟩
  | timedOut e =>
    rcases hc : conn.putDeliveryChannel
        { DeliveryChannel := buildDeliveryChannel d } s' with ⟨r, s''⟩
    cases r with
    | ok u => exact Or.inr ⟨s'', by simp [hr, hc]⟩
    | error e' => exact Or.inl ⟨e', by simp [hr, hc]⟩

/-- C5: when the service reports the dedicated not-found condition
(whatever its message) or returns zero matching channels, Read returns the
nil error (the non-error Absent outcome) with the stored identity
cleared. -/
theorem read_absent_clears_identity {σ : Type} (conn : Client σ)
    (d : ResourceData) (s s' : σ) :
    (∀ m, conn.describeDeliveryChannels { DeliveryChannelNames := [d.id] } s =
        (Except.error { code := "NoSuchDeliveryChannelException", message := m }, s') →
      resourceAwsConfigDeliveryChannelRead conn d s =
        (Except.ok (), { d with id := "" }, s')) ∧
    (conn.describeDeliveryChannels { DeliveryChannelNames := [d.id] } s =
        (Except.ok { DeliveryChannels := [] }, s') →
      resourceAwsConfigDeliveryChannelRead conn d s =
        (Except.ok (), { d with id := "" }, s')) := by
  constructor
  · intro m h
    unfold resourceAwsConfigDeliveryChannelRead
    simp [h]
  · intro h
    unfold resourceAwsConfigDeliveryChannelRead
    simp [h]

/-- Witness for C5: against a client describing zero channels, Read on the
"default" identity succeeds and clears the identity. -/
theorem read_absent_clears_identity_witness :
    resourceAwsConfigDeliveryChannelRead absentClient specD () =
      (Except.ok (), { specD with id := "" }, ()) :=
  (read_absent_clears_identity absentClient specD () ()).2 rfl

/-- C6: when the service returns more than one channel for the single
requested name, Read fails with the error built from the unexpected count,
the requested name and the rendering of the returned objects, and the
state — the stored identity included — is left unchanged. -/
theorem read_multiple_matches_error {σ : Type} (conn : Client σ)
    (d : ResourceData) (s s' : σ) (c1 c2 : DeliveryChannel)
    (rest : List DeliveryChannel)
    (h : conn.describeDeliveryChannels { DeliveryChannelNames := [d.id] } s =
        (Except.ok { DeliveryChannels := c1 :: c2 :: rest }, s')) :
    resourceAwsConfigDeliveryChannelRead conn d s =
      (Except.error ("Received " ++ toString (c1 :: c2 :: rest).length ++
          " delivery channels under " ++ d.id ++ " (expected exactly 1): " ++
          renderChannels (c1 :: c2 :: rest)), d, s') := by
  unfold resourceAwsConfigDeliveryChannelRead
  simp [h]

/-- Witness for C6: a client returning two channels for the one requested
name makes Read fail with the message built from the count 2, the
requested name and the two returned objects, leaving state unchanged. -/
theorem read_multiple_matches_error_witness :
    resourceAwsConfigDeliveryChannelRead dupClient specD () =
      (Except.error ("Received " ++ toString ([dupChannel, dupChannel].length) ++
          " delivery channels under " ++ specD.id ++ " (expected exactly 1): " ++
          renderChannels [dupChannel, dupChannel]), specD, ()) :=
  read_multiple_matches_error dupClient specD () () dupChannel dupChannel [] rfl

/-- C7: Delete's retry window is the fixed 30 seconds, and its delete call
is retried exactly when the remote error passes the
last-delivery-channel-delete-failed code plus running-configuration-recorder
message-substring classification: a passing first error leads to a second
call (which here succeeds), while a failing one — same code with another
message, or any other code — is terminal immediately with exactly one call
made whatever the window. -/
theorem delete_retry_classification (g : Nat → Except AwsError Unit) (e : AwsError)
    (d : ResourceData) (n : Nat)
    (h0 : g 0 = Except.error e) (h1 : g 1 = Except.ok ()) :
    deleteRetryWindowSeconds = 30 ∧
    (isAWSErr e ErrCodeLastDeliveryChannelDeleteFailedException
        "there is a running configuration recorder" = true →
      resourceAwsConfigDeliveryChannelDelete (deleteCountClient g) (n + 1) d 0 =
        (Except.ok (), d, 2)) ∧
    (isAWSErr e ErrCodeLastDeliveryChannelDeleteFailedException
        "there is a running configuration recorder" = false →
      ∀ m, resourceAwsConfigDeliveryChannelDelete (deleteCountClient g) m d 0 =
        (Except.error ("Unable to delete delivery channel: " ++ renderAwsErr e),
          d, 1)) := by
  refine ⟨rfl, ?_, ?_⟩
  · intro hret
    simp only [resourceAwsConfigDeliveryChannelDelete]
    rw [retryLoop]
    simp only [deleteCountClient, h0, hret, if_true]
    rw [retryLoop_first_ok _ _ n 1 2 (by simp [h1])]
  · intro hret m
    simp only [resourceAwsConfigDeliveryChannelDelete]
    rw [retryLoop_first_terminal _ _ m 0 1 e (by simp [deleteCountClient, h0]) hret]

/-- Witness for C7: the recorder-still-running error is retried (two calls,
then success); the same outcomes with a non-matching error are covered by
the theorem's terminal branch. -/
theorem delete_retry_classification_witness :
    resourceAwsConfigDeliveryChannelDelete
        (deleteCountClient oneErrThenOkDelete) 1 specD 0 =
      (Except.ok (), specD, 2) :=
  (delete_retry_classification oneErrThenOkDelete recorderErr specD 0 rfl rfl).2.1
    (by decide)

/-- C8: during Upsert's retry phase exactly the errors carrying the
insufficient-delivery-policy code are retryable (the message part of the
classification is vacuous); a first error carrying it leads to a second
put call (which here succeeds, proceeding to the read-back), while any
other error is terminal with exactly one put call, zero describe calls
(Read not invoked) and the wrapped creation error, whatever the window. -/
theorem upsert_retry_classification (f : Nat → Except AwsError Unit)
    (desc : Except AwsError DescribeDeliveryChannelsOutput) (e : AwsError)
    (d : ResourceData) (n : Nat)
    (h0 : f 0 = Except.error e) (h1 : f 1 = Except.ok ()) :
    (isAWSErr e "InsufficientDeliveryPolicyException" "" =
      (e.code == "InsufficientDeliveryPolicyException")) ∧
    ((e.code == "InsufficientDeliveryPolicyException") = true →
      resourceAwsConfigDeliveryChannelPut (putDescCountClient f desc) (n + 1) d (0, 0) =
        resourceAwsConfigDeliveryChannelRead (putDescCountClient f desc)
          { d with id := d.name } (2, 0)) ∧
    ((e.code == "InsufficientDeliveryPolicyException") = false →
      ∀ m, resourceAwsConfigDeliveryChannelPut (putDescCountClient f desc) m d (0, 0) =
        (Except.error ("Creating Delivery Channel failed: " ++ renderAwsErr e),
          d, (1, 0))) := by
  refine ⟨isAWSErr_empty_msg e _, ?_, ?_⟩
  · intro hret
    simp only [resourceAwsConfigDeliveryChannelPut]
    rw [retryLoop]
    simp only [putDescCountClient, h0, isAWSErr_empty_msg, hret, if_true]
    rw [retryLoop_first_ok _ _ n (1, 0) (2, 0) (by simp [h1])]
  · intro hret m
    simp only [resourceAwsConfigDeliveryChannelPut]
    rw [retryLoop_first_terminal _ _ m (0, 0) (1, 0) e
      (by simp [putDescCountClient, h0])
      (by rw [isAWSErr_empty_msg]; exact hret)]

/-- Witness for C8: the insufficient-delivery-policy error is retried — a
second put call happens, succeeds, identity is set and the read-back is
returned. -/
theorem upsert_retry_classification_witness :
    resourceAwsConfigDeliveryChannelPut
        (putDescCountClient oneErrThenOkPut descEmpty) 1 specD (0, 0) =
      resourceAwsConfigDeliveryChannelRead
        (putDescCountClient oneErrThenOkPut descEmpty)
        { specD with id := specD.name } (2, 0) :=
  (upsert_retry_classification oneErrThenOkPut descEmpty insuffErr specD 0 rfl rfl).2.1
    (by decide)

/-- C9: against the replace-by-name echoing service, Upsert with a spec
holding at most one snapshot block succeeds, and a second Upsert with the
identical spec from the state and service state the first one left behind
succeeds too, returning exactly the same resulting state (the spec with
its identity set to the spec's name) and leaving the same stored
channel. -/
theorem upsert_idempotent (d : ResourceData) (n : Nat) (s0 : Option DeliveryChannel)
    (hd : d.snapshot_delivery_properties.length ≤ 1) :
    resourceAwsConfigDeliveryChannelPut echoClient n d s0 =
      (Except.ok (), { d with id := d.name }, some (buildDeliveryChannel d)) ∧
    resourceAwsConfigDeliveryChannelPut echoClient n { d with id := d.name }
        (some (buildDeliveryChannel d)) =
      (Except.ok (), { d with id := d.name }, some (buildDeliveryChannel d)) := by
  have h1 := put_echo n d s0
  rw [echoReadBack_roundtrip d hd] at h1
  have h2 := put_echo n { d with id := d.name } (some (buildDeliveryChannel d))
  have hb : buildDeliveryChannel { d with id := d.name } = buildDeliveryChannel d := rfl
  have hr : echoReadBack { d with id := d.name } = { d with id := d.name } :=
    echoReadBack_roundtrip _ hd
  rw [hb, hr] at h2
  exact ⟨h1, h2⟩

/-- Witness for C9: the end-to-end spec (name "default", bucket
"my-bucket", no optionals) upserted twice against the echo service yields
the same state both times with no error. -/
theorem upsert_idempotent_witness :
    resourceAwsConfigDeliveryChannelPut echoClient 0 specD none =
      (Except.ok (), { specD with id := specD.name }, some (buildDeliveryChannel specD)) ∧
    resourceAwsConfigDeliveryChannelPut echoClient 0 { specD with id := specD.name }
        (some (buildDeliveryChannel specD)) =
      (Except.ok (), { specD with id := specD.name }, some (buildDeliveryChannel specD)) :=
  upsert_idempotent specD 0 none (by decide)

/-- C10: when the put call succeeds but the immediate read-back's describe
call returns zero matching channels or the typed not-found error, Upsert
returns success (nil error) with the stored identity cleared — the
just-written object is silently reported as absent. -/
theorem put_success_then_absent_readback {σ : Type} (conn : Client σ)
    (retries : Nat) (d : ResourceData) (s s' s'' : σ)
    (hput : conn.putDeliveryChannel
        { DeliveryChannel := buildDeliveryChannel d } s = (Except.ok (), s')) :
    (conn.describeDeliveryChannels { DeliveryChannelNames := [d.name] } s' =
        (Except.ok { DeliveryChannels := [] }, s'') →
      resourceAwsConfigDeliveryChannelPut conn retries d s =
        (Except.ok (), { d with id := "" }, s'')) ∧
    (∀ m, conn.describeDeliveryChannels { DeliveryChannelNames := [d.name] } s' =
        (Except.error { code := "NoSuchDeliveryChannelException", message := m }, s'') →
      resourceAwsConfigDeliveryChannelPut conn retries d s =
        (Except.ok (), { d with id := "" }, s'')) := by
  have hloop := retryLoop_first_ok
    (fun st => conn.putDeliveryChannel { DeliveryChannel := buildDeliveryChannel d } st)
    (fun e => isAWSErr e "InsufficientDeliveryPolicyException" "") retries s s' hput
  constructor
  · intro hdesc
    simp only [resourceAwsConfigDeliveryChannelPut]
    rw [hloop]
    simp only [resourceAwsConfigDeliveryChannelRead]
    simp [hdesc]
  · intro m hdesc
    simp only [resourceAwsConfigDeliveryChannelPut]
    rw [hloop]
    simp only [resourceAwsConfigDeliveryChannelRead]
    simp [hdesc]

/-- Witness for C10: a client whose put succeeds and whose describe
reports zero channels makes Upsert return nil with the identity
cleared. -/
theorem put_success_then_absent_readback_witness :
    resourceAwsConfigDeliveryChannelPut absentClient 3 specD () =
      (Except.ok (), { specD with id := "" }, ()) :=
  (put_success_then_absent_readback absentClient 3 specD () () () rfl).1 rfl
